import Mathlib

/-!
Shallow embedding of `src/app.py` (Universal Document Reader).

The file models the conversion pipeline `convert_file_stream`, the helper
`format_size`, and the reduction-percentage computation from `main`.
External effects (the staging write at lines 33-34, the two extractor
libraries) are parameters of the model: an `Env` records, for one
invocation, how each external call would behave on the staged file.
-/

namespace UFC

/-- Whitespace characters recognised by Python `str.strip()` (the ASCII
whitespace set; the claims only depend on whether a stripped string is
empty). -/
def isPyWS (c : Char) : Bool :=
  c == ' ' || c == '\t' || c == '\n' || c == '\r' || c == '\x0b' || c == '\x0c'

/-- Model of Python `str.strip()`: drop whitespace from both ends. -/
def pyStrip (s : String) : String :=
  String.mk (((s.data.dropWhile isPyWS).reverse.dropWhile isPyWS).reverse)

/-- Model of Python `str.lower()` (character-wise lowering; the inputs the
claims exercise are ASCII). -/
def pyLower (s : String) : String :=
  String.mk (s.data.map Char.toLower)

/-- Boolean list-prefix check, written so that it reduces when the first
list is concrete. -/
def listPfx : List Char → List Char → Bool
  | [], _ => true
  | a :: as, bs =>
    match bs with
    | [] => false
    | b :: bs2 => (a == b) && listPfx as bs2

/-- Model of Python `str.endswith(t)`: `t` is a suffix of `s`. -/
def pyEndsWith (s t : String) : Bool :=
  listPfx t.data.reverse s.data.reverse

/-- A Python exception as observed by a caller of `convert_file_stream`:
either a `ValueError` raised by the pipeline itself, or any other
exception type (an OS error from the staging write, for instance), each
identified by its `str()` message. -/
inductive Exn
  | valueError (msg : String)
  | other (msg : String)
deriving DecidableEq

/-- The `str()` of an exception (for a `ValueError` this is its message). -/
def Exn.msg : Exn → String
  | .valueError m => m
  | .other m => m

/-- Behaviour of the staging step (`open`/`f.write` at app.py lines 33-34):
either it succeeds, or `open` itself raises so no file is created, or the
write raises after `open` already created the file. -/
inductive Staging
  | ok
  | openFailed (msg : String)
  | writeFailed (msg : String)
deriving DecidableEq

/-- The environment of one `convert_file_stream` invocation: the uploaded
file name, the staging behaviour, and the behaviour of the two extractor
calls on the staged file.  `primary` is `md_engine.convert(...)` observed
through `.text_content` (`.error m` when the call raises, with `m` the
message); `fallback` is `pdfminer.high_level.extract_text` (`.error m`
when it raises). -/
structure Env where
  name : String
  staging : Staging
  primary : Except String String
  fallback : Except String String

/-- The provenance marker prepended on the fallback path (app.py line 50). -/
def fallbackMarker : String := "**Note: Extracted using PDF Fallback**\n\n"

/-- Attempt 2 of the pipeline (app.py lines 45-54): the PDF fallback when
the temp filename has a `.pdf` suffix, then the final
"Could not extract text content." raise. -/
def attempt2 (env : Env) (temp_filename : String) : Except Exn String :=
  if pyEndsWith (pyLower temp_filename) ".pdf" then
    match env.fallback with
    | .ok raw_text =>
      if pyStrip raw_text ≠ "" then
        .ok (fallbackMarker ++ raw_text)
      else
        .error (.valueError "Could not extract text content.")
    | .error m => .error (.valueError ("PDF Fallback failed: " ++ m))
  else
    .error (.valueError "Could not extract text content.")

/-- Attempt 1 (app.py lines 38-43) and its continuation: return the
primary content when its stripped form is non-empty; on a raised or
empty primary result, fall through to attempt 2.  The `.error` case of
`env.primary` is the `except Exception: pass` at lines 42-43. -/
def pipelineCore (env : Env) (temp_filename : String) : Except Exn String :=
  match env.primary with
  | .ok text =>
    if pyStrip text ≠ "" then .ok text
    else attempt2 env temp_filename
  | .error _ => attempt2 env temp_filename

/-- The outer `try` body of `convert_file_stream` (app.py lines 36-57):
the pipeline core, then the outer `except Exception` at lines 56-57 that
re-wraps any raised error into `ValueError("Conversion failed: ...")`. -/
def tryBody (env : Env) (temp_filename : String) : Except Exn String :=
  match pipelineCore env temp_filename with
  | .ok t => .ok t
  | .error e => .error (.valueError ("Conversion failed: " ++ e.msg))

/-- Observable result of one invocation: the returned text or escaping
exception, whether the temp file was ever created, and whether it still
exists after the call returns or raises. -/
structure ConvResult where
  outcome : Except Exn String
  tempCreated : Bool
  tempExistsAfter : Bool

/-- Shallow embedding of `convert_file_stream` (app.py lines 27-61).
The staging write runs before the `try`/`finally`, so a staging failure
escapes unwrapped and skips the `finally` cleanup; after a successful
staging, the `finally` at lines 59-61 removes the temp file on every
exit path. -/
def convert_file_stream (env : Env) : ConvResult :=
  let temp_filename := "temp_" ++ env.name
  match env.staging with
  | .openFailed m =>
    { outcome := .error (.other m), tempCreated := false, tempExistsAfter := false }
  | .writeFailed m =>
    { outcome := .error (.other m), tempCreated := true, tempExistsAfter := true }
  | .ok =>
    { outcome := tryBody env temp_filename, tempCreated := true, tempExistsAfter := false }

/-- Reduction percentage computed in `main` (app.py lines 96-99), over ℚ. -/
def reduction (original_size converted_size : ℕ) : ℚ :=
  if original_size > 0 then
    (((original_size : ℚ) - (converted_size : ℚ)) / (original_size : ℚ)) * 100
  else 0

/-- Round to the nearest integer, ties to even: the rounding used by
Python float formatting (modelled over ℚ). -/
def roundHalfEven (x : ℚ) : ℤ :=
  if x - ⌊x⌋ < 1/2 then ⌊x⌋
  else if 1/2 < x - ⌊x⌋ then ⌊x⌋ + 1
  else if ⌊x⌋ % 2 = 0 then ⌊x⌋ else ⌊x⌋ + 1

/-- Two-digit zero-padded rendering of a natural number below 100. -/
def pad2 (n : ℕ) : String :=
  if n < 10 then "0" ++ toString n else toString n

/-- Model of the Python format `f"{x:.2f}"` over ℚ: round `x * 100` to the
nearest integer (ties to even) and print with two decimal places. -/
def fmt2 (x : ℚ) : String :=
  if roundHalfEven (x * 100) < 0 then
    "-" ++ toString ((roundHalfEven (x * 100)).natAbs / 100) ++ "." ++
      pad2 ((roundHalfEven (x * 100)).natAbs % 100)
  else
    toString ((roundHalfEven (x * 100)).natAbs / 100) ++ "." ++
      pad2 ((roundHalfEven (x * 100)).natAbs % 100)

/-- The loop of `format_size` (app.py lines 21-25): try each unit, divide
by 1024 on each miss, finish with TB. -/
def format_size_go : ℚ → List String → String
  | size_in_bytes, [] => fmt2 size_in_bytes ++ " " ++ "TB"
  | size_in_bytes, unit :: rest =>
    if size_in_bytes < 1024 then fmt2 size_in_bytes ++ " " ++ unit
    else format_size_go (size_in_bytes / 1024) rest

/-- Shallow embedding of `format_size` (app.py lines 19-25) over ℚ. -/
def format_size (size_in_bytes : ℚ) : String :=
  format_size_go size_in_bytes ["B", "KB", "MB", "GB"]

/-- The unit strings `format_size` can emit, in order of 1024-divisions. -/
def sizeUnits : List String := ["B", "KB", "MB", "GB", "TB"]

/-- The primary extractor misses: `md_engine.convert` raises, or returns
content whose stripped form is empty (app.py lines 38-43 fall through). -/
def primaryMisses (env : Env) : Prop :=
  (∃ m, env.primary = .error m) ∨ ∃ t, env.primary = .ok t ∧ pyStrip t = ""

/-! Helper lemmas. -/

lemma listPfx_pdf_temp (m : List Char) :
    listPfx ['f','d','p','.'] (m ++ ['_','p','m','e','t'])
      = listPfx ['f','d','p','.'] m := by
  match m with
  | [] => rfl
  | [a] => rfl
  | [a,b] => rfl
  | [a,b,c] => rfl
  | a::b::c::d::rest => rfl

lemma pyLower_append (s t : String) : pyLower (s ++ t) = pyLower s ++ pyLower t := by
  cases s with
  | mk ls =>
    cases t with
    | mk lt =>
      show String.mk ((ls ++ lt).map Char.toLower)
          = String.mk (ls.map Char.toLower ++ lt.map Char.toLower)
      rw [List.map_append]

/-- The `.pdf` check on the temp filename agrees with the same check on the
uploaded filename: the `temp_` staging mark does not change the suffix. -/
lemma pyEndsWith_temp (s : String) :
    pyEndsWith (pyLower ("temp_" ++ s)) ".pdf" = pyEndsWith (pyLower s) ".pdf" := by
  unfold pyEndsWith
  rw [pyLower_append]
  have h1 : pyLower "temp_" = "temp_" := by decide
  rw [h1]
  cases pyLower s with
  | mk l =>
    have h2 : ("temp_" ++ String.mk l).data = "temp_".data ++ l := String.data_append _ _
    show listPfx (".pdf".data.reverse) (("temp_" ++ String.mk l).data.reverse) = _
    rw [h2, List.reverse_append]
    show listPfx ['f','d','p','.'] (l.reverse ++ ['_','p','m','e','t']) = _
    rw [listPfx_pdf_temp]
    rfl

lemma pyStrip_ne_empty (s : String) (c : Char) (hc : c ∈ s.data) (hw : isPyWS c = false) :
    pyStrip s ≠ "" := by
  intro h
  have hdata : (((s.data.dropWhile isPyWS).reverse.dropWhile isPyWS).reverse) = [] := by
    have := congrArg String.data h
    exact this
  rw [List.reverse_eq_nil_iff] at hdata
  have hall : ∀ x ∈ (s.data.dropWhile isPyWS).reverse, isPyWS x = true :=
    List.dropWhile_eq_nil_iff.mp hdata
  have hc1 : c ∈ s.data.dropWhile isPyWS := by
    have hsplit := List.takeWhile_append_dropWhile (p := isPyWS) (l := s.data)
    rw [← hsplit] at hc
    rcases List.mem_append.mp hc with h1 | h2
    · exact absurd (List.mem_takeWhile_imp h1) (by simp [hw])
    · exact h2
  have := hall c (List.mem_reverse.mpr hc1)
  rw [hw] at this
  cases this

lemma pyStrip_marker_append (raw : String) : pyStrip (fallbackMarker ++ raw) ≠ "" := by
  apply pyStrip_ne_empty _ '*'
  · rw [String.data_append]
    exact List.mem_append_left _ (by decide)
  · decide

lemma attempt2_ok_nonempty {env : Env} {tf t : String}
    (h : attempt2 env tf = .ok t) : pyStrip t ≠ "" := by
  rw [attempt2] at h
  by_cases hpdf : pyEndsWith (pyLower tf) ".pdf" = true
  · rw [if_pos hpdf] at h
    cases hf : env.fallback with
    | ok raw =>
      simp only [hf] at h
      by_cases hr : pyStrip raw ≠ ""
      · simp only [if_pos hr] at h
        cases h
        exact pyStrip_marker_append raw
      · simp only [if_neg hr] at h
        cases h
    | error m =>
      simp only [hf] at h
      cases h
  · rw [if_neg hpdf] at h
    cases h

lemma strAppendAssoc (a b c : String) : a ++ b ++ c = a ++ (b ++ c) := by
  cases a with
  | mk la =>
    cases b with
    | mk lb =>
      cases c with
      | mk lc =>
        show String.mk ((la ++ lb) ++ lc) = String.mk (la ++ (lb ++ lc))
        rw [List.append_assoc]

lemma roundHalfEven_nonneg (x : ℚ) (hx : 0 ≤ x) : 0 ≤ roundHalfEven x := by
  have h0 : (0:ℤ) ≤ ⌊x⌋ := Int.floor_nonneg.mpr hx
  rw [roundHalfEven]
  split_ifs <;> omega

lemma fmt2_shape (x : ℚ) (hx : 0 ≤ x) :
    ∃ m : ℕ, fmt2 x = toString (m / 100) ++ "." ++ pad2 (m % 100) := by
  refine ⟨(roundHalfEven (x * 100)).natAbs, ?_⟩
  rw [fmt2, if_neg]
  exact Int.not_lt.mpr (roundHalfEven_nonneg _ (mul_nonneg hx (by norm_num)))

/-! Claim theorems. -/

/-- Claim C1: whenever the Structured Extractor returns content whose
trimmed form is non-empty, `convert_file_stream` returns successfully with
exactly that content, with no fallback marker added. -/
theorem primary_success (env : Env) (text : String)
    (hs : env.staging = .ok) (hp : env.primary = .ok text)
    (ht : pyStrip text ≠ "") :
    (convert_file_stream env).outcome = .ok text := by
  obtain ⟨name, staging, primary, fallback⟩ := env
  simp only at hs hp
  subst hs; subst hp
  simp [convert_file_stream, tryBody, pipelineCore, ht]

/-- Witness for C1 at a concrete input. -/
theorem primary_success_witness :
    (convert_file_stream ⟨"a.docx", .ok, .ok "hello", .ok ""⟩).outcome = .ok "hello" :=
  primary_success ⟨"a.docx", .ok, .ok "hello", .ok ""⟩ "hello" rfl rfl (by decide)

/-- Claim C2: for a filename with a case-insensitive `.pdf` suffix, when the
Structured Extractor raises or returns empty content and the Raw Text
Extractor returns content with non-empty trimmed form, the call succeeds
with the fixed provenance marker prefixed to the raw text. -/
theorem pdf_fallback_success (env : Env) (raw_text : String)
    (hs : env.staging = .ok)
    (hpdf : pyEndsWith (pyLower env.name) ".pdf" = true)
    (hp : primaryMisses env)
    (hf : env.fallback = .ok raw_text)
    (hr : pyStrip raw_text ≠ "") :
    (convert_file_stream env).outcome = .ok (fallbackMarker ++ raw_text) := by
  obtain ⟨name, staging, primary, fallback⟩ := env
  simp only at hs hf hpdf
  subst hs; subst hf
  have hcheck : pyEndsWith (pyLower ("temp_" ++ name)) ".pdf" = true := by
    rw [pyEndsWith_temp]; exact hpdf
  rcases hp with ⟨m, hm⟩ | ⟨t, ht, hts⟩
  · simp only at hm
    subst hm
    simp [convert_file_stream, tryBody, pipelineCore, attempt2, hcheck, hr]
  · simp only at ht
    subst ht
    simp [convert_file_stream, tryBody, pipelineCore, attempt2, hcheck, hr, hts]

/-- Witness for C2 at a concrete input (uppercase suffix included). -/
theorem pdf_fallback_success_witness :
    (convert_file_stream ⟨"r.PDF", .ok, .error "boom", .ok "raw text"⟩).outcome
      = .ok (fallbackMarker ++ "raw text") :=
  pdf_fallback_success ⟨"r.PDF", .ok, .error "boom", .ok "raw text"⟩ "raw text"
    rfl (by decide) (Or.inl ⟨"boom", rfl⟩) rfl (by decide)

/-- Counterexample to claim C3 as stated: when the staging write raises
after `open` created the file (staging runs before the `try`/`finally` at
app.py lines 33-34), the temp file still exists after the call raises. -/
theorem cleanup_cex :
    (convert_file_stream
        ⟨"a.pdf", .writeFailed "No space left on device", .ok "", .ok ""⟩).tempCreated = true
    ∧ (convert_file_stream
        ⟨"a.pdf", .writeFailed "No space left on device", .ok "", .ok ""⟩).tempExistsAfter = true :=
  ⟨rfl, rfl⟩

/-- Claim C3 as amended: whenever staging succeeds, exactly one staged
resource is created and it no longer exists after `convert_file_stream`
returns or raises, on every exit path. -/
theorem cleanup_after_staging (env : Env) (hs : env.staging = .ok) :
    (convert_file_stream env).tempCreated = true
    ∧ (convert_file_stream env).tempExistsAfter = false := by
  obtain ⟨name, staging, primary, fallback⟩ := env
  simp only at hs
  subst hs
  exact ⟨rfl, rfl⟩

/-- Witness for the amended C3 at a concrete input. -/
theorem cleanup_after_staging_witness :
    (convert_file_stream ⟨"a.docx", .ok, .ok "x", .ok ""⟩).tempCreated = true
    ∧ (convert_file_stream ⟨"a.docx", .ok, .ok "x", .ok ""⟩).tempExistsAfter = false :=
  cleanup_after_staging ⟨"a.docx", .ok, .ok "x", .ok ""⟩ rfl

/-- Claim C4: for a filename without a case-insensitive `.pdf` suffix, when
the Structured Extractor raises or returns empty content, the call raises
the no-content failure (realised in code as
`ValueError("Conversion failed: Could not extract text content.")`), and
the result does not depend on the Raw Text Extractor at all. -/
theorem non_pdf_no_content (env : Env)
    (hs : env.staging = .ok)
    (hpdf : pyEndsWith (pyLower env.name) ".pdf" = false)
    (hp : primaryMisses env) :
    (convert_file_stream env).outcome
      = .error (.valueError ("Conversion failed: " ++ "Could not extract text content."))
    ∧ ∀ fb, convert_file_stream { env with fallback := fb } = convert_file_stream env := by
  obtain ⟨name, staging, primary, fallback⟩ := env
  simp only at hs hpdf
  subst hs
  have hcheck : pyEndsWith (pyLower ("temp_" ++ name)) ".pdf" = false := by
    rw [pyEndsWith_temp]; exact hpdf
  rcases hp with ⟨m, hm⟩ | ⟨t, ht, hts⟩
  · simp only at hm
    subst hm
    constructor
    · simp [convert_file_stream, tryBody, pipelineCore, attempt2, hcheck, Exn.msg]
    · intro fb
      simp [convert_file_stream, tryBody, pipelineCore, attempt2, hcheck]
  · simp only at ht
    subst ht
    constructor
    · simp [convert_file_stream, tryBody, pipelineCore, attempt2, hcheck, hts, Exn.msg]
    · intro fb
      simp [convert_file_stream, tryBody, pipelineCore, attempt2, hcheck, hts]

/-- Witness for C4 at a concrete input. -/
theorem non_pdf_no_content_witness :
    (convert_file_stream ⟨"data.xlsx", .ok, .error "boom", .ok "raw"⟩).outcome
      = .error (.valueError ("Conversion failed: " ++ "Could not extract text content.")) :=
  (non_pdf_no_content ⟨"data.xlsx", .ok, .error "boom", .ok "raw"⟩ rfl (by decide)
    (Or.inl ⟨"boom", rfl⟩)).1

/-- Counterexample to claim C5 as stated: the FallbackFailed `ValueError`
raised at app.py line 52 is caught by the outer handler at lines 56-57 and
re-wrapped into the generic `Conversion failed:` wrapper, so it does not
reach the caller as-is. -/
theorem fallback_rewrap_cex :
    (convert_file_stream ⟨"r.pdf", .ok, .error "primary boom", .error "bad pdf"⟩).outcome
      = .error (.valueError "Conversion failed: PDF Fallback failed: bad pdf")
    ∧ Exn.valueError "Conversion failed: PDF Fallback failed: bad pdf"
        ≠ Exn.valueError "PDF Fallback failed: bad pdf" :=
  ⟨rfl, by decide⟩

/-- Claim C5 as amended: when the Raw Text Extractor raises on a `.pdf`
input, the caller receives a `ValueError` whose message is the generic
wrapper around the FallbackFailed message, with the nested cause preserved
only inside the message text. -/
theorem fallback_error_wrapped (env : Env) (m : String)
    (hs : env.staging = .ok)
    (hpdf : pyEndsWith (pyLower env.name) ".pdf" = true)
    (hp : primaryMisses env)
    (hf : env.fallback = .error m) :
    (convert_file_stream env).outcome
      = .error (.valueError ("Conversion failed: " ++ ("PDF Fallback failed: " ++ m))) := by
  obtain ⟨name, staging, primary, fallback⟩ := env
  simp only at hs hpdf hf
  subst hs; subst hf
  have hcheck : pyEndsWith (pyLower ("temp_" ++ name)) ".pdf" = true := by
    rw [pyEndsWith_temp]; exact hpdf
  rcases hp with ⟨em, hm⟩ | ⟨t, ht, hts⟩
  · simp only at hm
    subst hm
    simp [convert_file_stream, tryBody, pipelineCore, attempt2, hcheck, Exn.msg]
  · simp only at ht
    subst ht
    simp [convert_file_stream, tryBody, pipelineCore, attempt2, hcheck, hts, Exn.msg]

/-- Witness for the amended C5 at a concrete input. -/
theorem fallback_error_wrapped_witness :
    (convert_file_stream ⟨"x.pdf", .ok, .error "p", .error "q"⟩).outcome
      = .error (.valueError ("Conversion failed: " ++ ("PDF Fallback failed: " ++ "q"))) :=
  fallback_error_wrapped ⟨"x.pdf", .ok, .error "p", .error "q"⟩ "q" rfl (by decide)
    (Or.inl ⟨"p", rfl⟩) rfl

/-- Counterexample to claim C6 as stated: an I/O error raised while staging
(before the `try` at app.py line 36) escapes to the caller unwrapped, not
as the single `ValueError` wrapper. -/
theorem staging_unwrapped_cex :
    (convert_file_stream ⟨"a.docx", .openFailed "Permission denied", .ok "x", .ok ""⟩).outcome
      = .error (.other "Permission denied")
    ∧ Exn.other "Permission denied"
        ≠ Exn.valueError ("Conversion failed: " ++ "Permission denied") :=
  ⟨rfl, by decide⟩

/-- Claim C6 as amended: once staging has succeeded, every invocation
either returns text or raises a single `ValueError` whose message is the
generic wrapper around exactly the message of the error raised inside the
pipeline (the original cause). -/
theorem wrapped_after_staging (env : Env) (hs : env.staging = .ok) :
    (∃ t, (convert_file_stream env).outcome = .ok t)
    ∨ (∃ e : Exn, pipelineCore env ("temp_" ++ env.name) = .error e
          ∧ (convert_file_stream env).outcome
              = .error (.valueError ("Conversion failed: " ++ e.msg))) := by
  obtain ⟨name, staging, primary, fallback⟩ := env
  simp only at hs
  subst hs
  cases hc : pipelineCore ⟨name, .ok, primary, fallback⟩ ("temp_" ++ name) with
  | ok t => exact Or.inl ⟨t, by simp [convert_file_stream, tryBody, hc]⟩
  | error e => exact Or.inr ⟨e, rfl, by simp [convert_file_stream, tryBody, hc]⟩

/-- Witness for the amended C6 at a concrete input. -/
theorem wrapped_after_staging_witness :
    (∃ t, (convert_file_stream ⟨"a.docx", .ok, .ok "hi", .ok ""⟩).outcome = .ok t)
    ∨ (∃ e : Exn, pipelineCore ⟨"a.docx", .ok, .ok "hi", .ok ""⟩ ("temp_" ++ "a.docx") = .error e
          ∧ (convert_file_stream ⟨"a.docx", .ok, .ok "hi", .ok ""⟩).outcome
              = .error (.valueError ("Conversion failed: " ++ e.msg))) :=
  wrapped_after_staging ⟨"a.docx", .ok, .ok "hi", .ok ""⟩ rfl

/-- Claim C7: the reduction metric computed in `main` equals
`(original - converted) / original * 100` when `original > 0`, equals `0`
when `original = 0`, and evaluates to `40` at sizes `1000` and `600`. -/
theorem reduction_spec :
    (∀ o c : ℕ, 0 < o → reduction o c = (((o:ℚ) - (c:ℚ)) / (o:ℚ)) * 100)
    ∧ (∀ c : ℕ, reduction 0 c = 0)
    ∧ reduction 1000 600 = 40 := by
  refine ⟨?_, ?_, ?_⟩
  · intro o c ho
    rw [reduction, if_pos ho]
  · intro c
    rfl
  · norm_num [reduction]

/-- Witness for C7 at a concrete input. -/
theorem reduction_spec_witness :
    0 < 1000 ∧ reduction 1000 600 = ((((1000:ℕ):ℚ) - ((600:ℕ):ℚ)) / ((1000:ℕ):ℚ)) * 100 :=
  ⟨by decide, reduction_spec.1 1000 600 (by decide)⟩

/-- Counterexample to claim C8 as stated: an invocation can fail with an
exception that is not the `ValueError` wrapper, namely when the staging
write raises before the `try` begins. -/
theorem failure_unwrapped_cex :
    (convert_file_stream
        ⟨"b.pdf", .writeFailed "No space left on device", .ok "x", .ok "y"⟩).outcome
      = .error (.other "No space left on device")
    ∧ Exn.other "No space left on device"
        ≠ Exn.valueError ("Conversion failed: " ++ "No space left on device") :=
  ⟨rfl, by decide⟩

/-- Claim C8 as amended: for every failure after staging succeeded, the
escaping exception is a `ValueError` whose message is
`"Conversion failed: "` followed by exactly the message of the error
raised inside the pipeline (the original cause). -/
theorem failure_message_after_staging (env : Env) (e : Exn)
    (hs : env.staging = .ok)
    (he : (convert_file_stream env).outcome = .error e) :
    ∃ cause : Exn, pipelineCore env ("temp_" ++ env.name) = .error cause
      ∧ e = .valueError ("Conversion failed: " ++ cause.msg) := by
  obtain ⟨name, staging, primary, fallback⟩ := env
  simp only at hs
  subst hs
  have hb : tryBody ⟨name, .ok, primary, fallback⟩ ("temp_" ++ name) = .error e := he
  cases hc : pipelineCore ⟨name, .ok, primary, fallback⟩ ("temp_" ++ name) with
  | ok t => rw [tryBody, hc] at hb; cases hb
  | error e2 =>
    rw [tryBody, hc] at hb
    cases hb
    exact ⟨e2, rfl, rfl⟩

/-- Witness for the amended C8 at a concrete input. -/
theorem failure_message_after_staging_witness :
    ∃ cause : Exn, pipelineCore ⟨"n.csv", .ok, .error "boom", .ok ""⟩ ("temp_" ++ "n.csv")
        = .error cause
      ∧ Exn.valueError ("Conversion failed: " ++ "Could not extract text content.")
          = .valueError ("Conversion failed: " ++ cause.msg) :=
  failure_message_after_staging ⟨"n.csv", .ok, .error "boom", .ok ""⟩
    (.valueError ("Conversion failed: " ++ "Could not extract text content.")) rfl rfl

/-- Claim C9: every successful return of `convert_file_stream` carries text
whose stripped form is non-empty, on both the primary and the fallback
path. -/
theorem success_nonempty (env : Env) (t : String)
    (h : (convert_file_stream env).outcome = .ok t) :
    pyStrip t ≠ "" := by
  obtain ⟨name, staging, primary, fallback⟩ := env
  cases staging with
  | openFailed m => cases h
  | writeFailed m => cases h
  | ok =>
    have hb : tryBody ⟨name, .ok, primary, fallback⟩ ("temp_" ++ name) = .ok t := h
    cases hc : pipelineCore ⟨name, .ok, primary, fallback⟩ ("temp_" ++ name) with
    | error e => rw [tryBody, hc] at hb; cases hb
    | ok t2 =>
      rw [tryBody, hc] at hb
      cases hb
      cases hp : primary with
      | ok text =>
        rw [pipelineCore] at hc
        simp only [hp] at hc
        by_cases hs : pyStrip text ≠ ""
        · rw [if_pos hs] at hc
          cases hc
          exact hs
        · rw [if_neg hs] at hc
          exact attempt2_ok_nonempty hc
      | error m =>
        rw [pipelineCore] at hc
        simp only [hp] at hc
        exact attempt2_ok_nonempty hc

/-- Witness for C9 at a concrete input. -/
theorem success_nonempty_witness :
    pyStrip "hi there" ≠ "" :=
  success_nonempty ⟨"a.docx", .ok, .ok "hi there", .ok ""⟩ "hi there" rfl

/-- Claim C10: for `0 ≤ size < 1024` the result is the two-decimal
rendering of `size` followed by `" B"`; in general, for every non-negative
size the result is a two-decimal number followed by one unit among
B, KB, MB, GB, TB, where the unit at index `k` is paired with the size
divided by `1024 ^ k`. -/
theorem format_size_spec :
    (∀ q : ℚ, 0 ≤ q → q < 1024 → format_size q = fmt2 q ++ " B")
    ∧ (∀ q : ℚ, 0 ≤ q → ∃ k : Fin 5, ∃ m : ℕ,
        format_size q = fmt2 (q / 1024 ^ (k : ℕ)) ++ " " ++ sizeUnits.get k
        ∧ fmt2 (q / 1024 ^ (k : ℕ)) = toString (m / 100) ++ "." ++ pad2 (m % 100)) := by
  constructor
  · intro q h0 h1
    simp only [format_size, format_size_go]
    rw [if_pos h1, strAppendAssoc]
    rfl
  · intro q h0
    by_cases h1 : q < 1024
    · have he : q / 1024 ^ ((⟨0, by norm_num⟩ : Fin 5) : ℕ) = q := by norm_num
      obtain ⟨m, hm⟩ := fmt2_shape q h0
      refine ⟨⟨0, by norm_num⟩, m, ?_, ?_⟩
      · rw [he]
        simp only [format_size, format_size_go]
        rw [if_pos h1]
        rfl
      · rw [he]
        exact hm
    · by_cases h2 : q / 1024 < 1024
      · have he : q / 1024 ^ ((⟨1, by norm_num⟩ : Fin 5) : ℕ) = q / 1024 := by norm_num
        obtain ⟨m, hm⟩ := fmt2_shape (q / 1024) (div_nonneg h0 (by norm_num))
        refine ⟨⟨1, by norm_num⟩, m, ?_, ?_⟩
        · rw [he]
          simp only [format_size, format_size_go]
          rw [if_neg h1, if_pos h2]
          rfl
        · rw [he]
          exact hm
      · by_cases h3 : q / 1024 / 1024 < 1024
        · have he : q / 1024 ^ ((⟨2, by norm_num⟩ : Fin 5) : ℕ) = q / 1024 / 1024 := by
            rw [div_div]
            norm_num
          obtain ⟨m, hm⟩ := fmt2_shape (q / 1024 / 1024)
            (div_nonneg (div_nonneg h0 (by norm_num)) (by norm_num))
          refine ⟨⟨2, by norm_num⟩, m, ?_, ?_⟩
          · rw [he]
            simp only [format_size, format_size_go]
            rw [if_neg h1, if_neg h2, if_pos h3]
            rfl
          · rw [he]
            exact hm
        · by_cases h4 : q / 1024 / 1024 / 1024 < 1024
          · have he : q / 1024 ^ ((⟨3, by norm_num⟩ : Fin 5) : ℕ) = q / 1024 / 1024 / 1024 := by
              rw [div_div, div_div]
              norm_num
            obtain ⟨m, hm⟩ := fmt2_shape (q / 1024 / 1024 / 1024)
              (div_nonneg (div_nonneg (div_nonneg h0 (by norm_num)) (by norm_num)) (by norm_num))
            refine ⟨⟨3, by norm_num⟩, m, ?_, ?_⟩
            · rw [he]
              simp only [format_size, format_size_go]
              rw [if_neg h1, if_neg h2, if_neg h3, if_pos h4]
              rfl
            · rw [he]
              exact hm
          · have he : q / 1024 ^ ((⟨4, by norm_num⟩ : Fin 5) : ℕ)
                = q / 1024 / 1024 / 1024 / 1024 := by
              rw [div_div, div_div, div_div]
              norm_num
            obtain ⟨m, hm⟩ := fmt2_shape (q / 1024 / 1024 / 1024 / 1024)
              (div_nonneg (div_nonneg (div_nonneg (div_nonneg h0 (by norm_num))
                (by norm_num)) (by norm_num)) (by norm_num))
            refine ⟨⟨4, by norm_num⟩, m, ?_, ?_⟩
            · rw [he]
              simp only [format_size, format_size_go]
              rw [if_neg h1, if_neg h2, if_neg h3, if_neg h4]
              rfl
            · rw [he]
              exact hm

/-- Witness for C10 at a concrete input. -/
theorem format_size_spec_witness :
    (0:ℚ) ≤ 512 ∧ (512:ℚ) < 1024 ∧ format_size 512 = fmt2 512 ++ " B" :=
  ⟨by decide, by decide, format_size_spec.1 512 (by decide) (by decide)⟩

end UFC
